import Mathlib

/-!
Shallow embedding of the coinbase volatility scanner core
(history store, movement classifier, throttle, formatter).
Timestamps are rational seconds; prices and percentages are rationals
standing for the Python floats; datetime subtraction and timedelta
values are mapped to rational second counts.
-/

namespace Scanner

/-- Configuration constants of the script (the module-level configuration
block): threshold, wick multiplier, cooldown minutes, cooldown multiplier,
historical interval minutes, volatility tag text. -/
structure Config where
  NOTIFICATION_THRESHOLD : ℚ
  WICK_MULTIPLIER : ℚ
  NOTIFICATION_COOLDOWN : ℚ
  NOTIFICATION_COOLDOWN_MULTIPLIER : ℚ
  HISTORICAL_INTERVAL_MINUTES : ℚ
  VOLATILE_TEXT : String
deriving DecidableEq

/-- The values the script ships with. -/
def defaultConfig : Config :=
  { NOTIFICATION_THRESHOLD := 1
    WICK_MULTIPLIER := 3
    NOTIFICATION_COOLDOWN := 5
    NOTIFICATION_COOLDOWN_MULTIPLIER := 2
    HISTORICAL_INTERVAL_MINUTES := 60
    VOLATILE_TEXT := "" }

/-- Per-pair throttle bookkeeping: the LAST_NOTIFIED entry (read through
dict.get with default 0), the LAST_NOTIFICATION_TIME entry and the
LAST_PRICES entry (absent dictionary entries are none). -/
structure ThrottleSt where
  lastNotified : ℚ
  lastNotificationTime : Option ℚ
  lastPrice : Option ℚ
deriving DecidableEq

/-- Fresh throttle state: no entries recorded for the pair yet. -/
def initSt : ThrottleSt :=
  { lastNotified := 0, lastNotificationTime := none, lastPrice := none }

/-- One ingest step for a present price (lines 183-190 of the script):
append the sample, then keep only samples whose timestamp is strictly
newer than now minus the retention period. -/
def ingest (retentionMinutes now price : ℚ) (h : List (ℚ × ℚ)) : List (ℚ × ℚ) :=
  (h ++ [(now, price)]).filter (fun s => decide (now - retentionMinutes * 60 < s.1))

/-- update_price_history (lines 177-190): fold over the fetched prices; a
missing price (None) skips the pair, a present price ingests it into the
history map. An unknown pair reads as the empty history. -/
def update_price_history (retentionMinutes now : ℚ)
    (prices : List (String × Option ℚ)) (hist : String → List (ℚ × ℚ)) :
    String → List (ℚ × ℚ) :=
  prices.foldl (fun h pp =>
    match pp.2 with
    | none => h
    | some price => Function.update h pp.1 (ingest retentionMinutes now price (h pp.1))) hist

/-- The eviction the claim describes, for comparison with the code: only
samples with timestamp strictly older than now minus the retention
period are removed, so a sample exactly at the boundary is kept. -/
def ingestClaimed (retentionMinutes now price : ℚ) (h : List (ℚ × ℚ)) : List (ℚ × ℚ) :=
  (h ++ [(now, price)]).filter (fun s => decide (now - retentionMinutes * 60 ≤ s.1))

/-- The windowing comprehension of check_price_movements: the samples of
the history whose timestamp is at least now minus the duration, in order. -/
def window (now duration : ℚ) (history : List (ℚ × ℚ)) : List (ℚ × ℚ) :=
  history.filter (fun s => decide (now - duration ≤ s.1))

/-- recent_prices (line 201): prices in the five minute short window. -/
def recent_prices (now : ℚ) (history : List (ℚ × ℚ)) : List ℚ :=
  (window now (5 * 60) history).map Prod.snd

/-- historical_prices (line 210): prices in the historical interval. -/
def historical_prices (cfg : Config) (now : ℚ) (history : List (ℚ × ℚ)) : List ℚ :=
  (window now (cfg.HISTORICAL_INTERVAL_MINUTES * 60) history).map Prod.snd

/-- Python max over a non-empty list (default 0 if empty, never used so). -/
def listMax : List ℚ → ℚ
  | [] => 0
  | x :: xs => xs.foldl max x

/-- Python min over a non-empty list (default 0 if empty, never used so). -/
def listMin : List ℚ → ℚ
  | [] => 0
  | x :: xs => xs.foldl min x

/-- initial_price (line 203): first recent price. -/
def initial_price_of (now : ℚ) (history : List (ℚ × ℚ)) : ℚ :=
  (recent_prices now history).headD 0

/-- current_price (line 204): last recent price. -/
def current_price_of (now : ℚ) (history : List (ℚ × ℚ)) : ℚ :=
  (recent_prices now history).getLastD 0

/-- high_price (line 205). -/
def high_price_of (now : ℚ) (history : List (ℚ × ℚ)) : ℚ :=
  listMax (recent_prices now history)

/-- low_price (line 206). -/
def low_price_of (now : ℚ) (history : List (ℚ × ℚ)) : ℚ :=
  listMin (recent_prices now history)

/-- percentage_change (line 207). -/
def percentage_change_of (now : ℚ) (history : List (ℚ × ℚ)) : ℚ :=
  (current_price_of now history - initial_price_of now history)
    / initial_price_of now history * 100

/-- historical_percentage_change (lines 211-215), as a total value; the
zero-divisor case is trapped separately in checkPair. -/
def historical_change_of (cfg : Config) (now : ℚ) (history : List (ℚ × ℚ)) : ℚ :=
  if (historical_prices cfg now history).length > 0 then
    (current_price_of now history - (historical_prices cfg now history).headD 0)
      / (historical_prices cfg now history).headD 0 * 100
  else 0

/-- The cooldown gate of lines 218-222: suppress when a last notification
time is recorded, fewer than NOTIFICATION_COOLDOWN minutes have passed,
and the change differs from the last notified change by less than
threshold times the cooldown multiplier. -/
def cooldownSuppressed (cfg : Config) (now pc : ℚ) (st : ThrottleSt) : Bool :=
  match st.lastNotificationTime with
  | none => false
  | some t =>
      decide ((now - t) / 60 < cfg.NOTIFICATION_COOLDOWN)
        && decide (|pc - st.lastNotified| <
              cfg.NOTIFICATION_THRESHOLD * cfg.NOTIFICATION_COOLDOWN_MULTIPLIER)

/-- The last-price gate of lines 225-229: suppress when a truthy last
price is recorded (Python truthiness: present and nonzero) and the move
from it is below the threshold. -/
def lastPriceSuppressed (cfg : Config) (current_price : ℚ) (st : ThrottleSt) : Bool :=
  match st.lastPrice with
  | none => false
  | some lp =>
      if lp = 0 then false
      else decide (|(current_price - lp) / lp * 100| < cfg.NOTIFICATION_THRESHOLD)

/-- Upward wick condition of line 236. -/
def upWickCond (cfg : Config) (now : ℚ) (history : List (ℚ × ℚ)) : Bool :=
  decide (high_price_of now history >
    initial_price_of now history * (1 + cfg.WICK_MULTIPLIER * cfg.NOTIFICATION_THRESHOLD / 100))

/-- Downward wick condition of line 239. -/
def downWickCond (cfg : Config) (now : ℚ) (history : List (ℚ × ℚ)) : Bool :=
  decide (low_price_of now history <
    initial_price_of now history * (1 - cfg.WICK_MULTIPLIER * cfg.NOTIFICATION_THRESHOLD / 100))

/-- The wicked flag after lines 234-241. -/
def wickedOf (cfg : Config) (now : ℚ) (history : List (ℚ × ℚ)) : Bool :=
  upWickCond cfg now history || downWickCond cfg now history

/-- A candidate notification as appended by check_price_movements: the
arguments of the format_notification call, plus which branch appended it
(isWick records whether the wicked flag was set at the append). -/
structure Event where
  pair : String
  percentage_change : ℚ
  current_price : ℚ
  historical_percentage_change : ℚ
  extra_info : String
  isWick : Bool
deriving DecidableEq

/-- The body of the per-pair loop of check_price_movements
(lines 198-246) for one pair: returns the notifications appended for the
pair and the updated throttle entries, or an error when the Python code
would raise ZeroDivisionError. -/
def checkPair (cfg : Config) (now : ℚ) (pair : String) (history : List (ℚ × ℚ))
    (st : ThrottleSt) : Except String (List Event × ThrottleSt) :=
  if history.length > 0 then
    if (recent_prices now history).length > 0 then
      if initial_price_of now history = 0 then
        Except.error "ZeroDivisionError"
      else if (historical_prices cfg now history).length > 0
          ∧ (historical_prices cfg now history).headD 0 = 0 then
        Except.error "ZeroDivisionError"
      else if cooldownSuppressed cfg now (percentage_change_of now history) st = true then
        Except.ok ([], st)
      else if lastPriceSuppressed cfg (current_price_of now history) st = true then
        Except.ok ([], st)
      else
        let st1 : ThrottleSt := { st with lastPrice := some (current_price_of now history) }
        let pc : ℚ := percentage_change_of now history
        let hpc : ℚ := historical_change_of cfg now history
        let wickEvents : List Event :=
          if upWickCond cfg now history = true then
            [{ pair := pair, percentage_change := pc, current_price := current_price_of now history,
               historical_percentage_change := hpc, extra_info := cfg.VOLATILE_TEXT, isWick := true }]
          else if downWickCond cfg now history = true then
            [{ pair := pair, percentage_change := pc, current_price := current_price_of now history,
               historical_percentage_change := hpc, extra_info := cfg.VOLATILE_TEXT, isWick := true }]
          else []
        if |pc| ≥ cfg.NOTIFICATION_THRESHOLD ∧ wickedOf cfg now history = false then
          Except.ok (wickEvents ++
            [{ pair := pair, percentage_change := pc, current_price := current_price_of now history,
               historical_percentage_change := hpc, extra_info := "", isWick := false }],
            { st1 with lastNotified := pc, lastNotificationTime := some now })
        else
          Except.ok (wickEvents, st1)
    else Except.ok ([], st)
  else Except.ok ([], st)

/-- check_price_movements over the whole history map: fold the per-pair
body over the stored histories, accumulating notifications and updating
the throttle entries pair by pair. -/
def check_price_movements (cfg : Config) (now : ℚ)
    (histories : List (String × List (ℚ × ℚ))) (throttle : String → ThrottleSt) :
    Except String (List Event × (String → ThrottleSt)) :=
  histories.foldlM (fun acc ph => do
    let r ← checkPair cfg now ph.1 ph.2 (acc.2 ph.1)
    pure (acc.1 ++ r.1, Function.update acc.2 ph.1 r.2)) (([], throttle))

/-! Formatter embedding (lines 250-303). The formatting constants of the
script, the Python string padding helpers, fixed-point rendering of the
float format specifications, the emoji ladder, and format_notification. -/

/-- HISTORICAL_INTERVAL_MINUTES constant (line 86). -/
def HISTORICAL_INTERVAL_MINUTES : ℕ := 60

/-- PAIR_LENGTH constant (line 106). -/
def PAIR_LENGTH : ℕ := 11

/-- PERCENT_LENGTH constant (line 107). -/
def PERCENT_LENGTH : ℕ := 7

/-- PRICE_LENGTH constant (line 108). -/
def PRICE_LENGTH : ℕ := 10

/-- HISTORICAL_LENGTH constant (line 109). -/
def HISTORICAL_LENGTH : ℕ := 13

/-- VOLATILE_TEXT constant (line 97). -/
def VOLATILE_TEXT : String := ""

/-- A run of space characters. -/
def spaces (n : ℕ) : String := String.mk (List.replicate n ' ')

/-- Python str.ljust. -/
def ljust (s : String) (w : ℕ) : String :=
  if w ≤ s.length then s else s ++ spaces (w - s.length)

/-- Python str.rjust. -/
def rjust (s : String) (w : ℕ) : String :=
  if w ≤ s.length then s else spaces (w - s.length) ++ s

/-- Python str.center: the extra left padding term is
(margin AND width AND 1) as in CPython. -/
def center (s : String) (w : ℕ) : String :=
  if w ≤ s.length then s
  else
    let marg := w - s.length
    let left := marg / 2 + (marg &&& w &&& 1)
    spaces left ++ s ++ spaces (marg - left)

/-- Round to the nearest integer, ties to even, as float formatting does. -/
def roundHalfEven (q : ℚ) : ℤ :=
  let n := ⌊q⌋
  if q - n < 1 / 2 then n
  else if (1 : ℚ) / 2 < q - n then n + 1
  else if n % 2 = 0 then n else n + 1

/-- Zero-pad a numeral string on the left to the given width. -/
def zeroPad (s : String) (w : ℕ) : String :=
  String.mk (List.replicate (w - s.length) '0') ++ s

/-- Fixed-point rendering of the magnitude with the given number of
decimal places. -/
def pyFixedAbs (q : ℚ) (prec : ℕ) : String :=
  let n : ℕ := (roundHalfEven (|q| * (10 : ℚ) ^ prec)).toNat
  toString (n / 10 ^ prec) ++ "." ++ zeroPad (toString (n % 10 ^ prec)) prec

/-- The Python format specification .2f style rendering: minus sign for
negative values only. -/
def pyFixed (q : ℚ) (prec : ℕ) : String :=
  (if q < 0 then "-" else "") ++ pyFixedAbs q prec

/-- The Python format specification +.2f style rendering: an explicit
sign is always present, plus for zero and positive values. -/
def pyFixedSigned (q : ℚ) (prec : ℕ) : String :=
  (if q < 0 then "-" else "+") ++ pyFixedAbs q prec

/-- get_emoji (lines 283-303): the severity ladder on the absolute
percentage change. -/
def get_emoji (change : ℚ) : String :=
  if |change| < 1 then "▪️"
  else if |change| < 2 then "◼"
  else if |change| < 3 then "🟫"
  else if |change| < 4 then "🟪"
  else if |change| < 5 then "🟦"
  else if |change| < 6 then "🟩"
  else if |change| < 7 then "🟨"
  else if |change| < 8 then "🟧"
  else if |change| < 9 then "🟥"
  else "💥"

/-- The direction marker (lines 252 and 254): blue for a strictly
positive change, orange otherwise. -/
def direction_sign (change : ℚ) : String :=
  if change > 0 then "🔹" else "🔸"

/-- The manual plus of the historical field (line 255): present only for
a strictly positive historical change. -/
def historical_plus (historical_change : ℚ) : String :=
  if historical_change > 0 then "+" else ""

/-- historical_info (line 255). -/
def historical_info (historical_change : ℚ) : String :=
  "[" ++ toString HISTORICAL_INTERVAL_MINUTES ++ "m "
    ++ historical_plus historical_change ++ pyFixed historical_change 2 ++ "%]"

/-- pair_display (line 258). -/
def pair_display (pair : String) : String :=
  center ("[" ++ pair ++ "]") PAIR_LENGTH

/-- percent_display (line 261): always-signed percentage. -/
def percent_display (change : ℚ) : String :=
  ljust (pyFixedSigned change 2 ++ "%") PERCENT_LENGTH

/-- price_display (line 264). -/
def price_display (current_price : ℚ) : String :=
  center ("$" ++ pyFixed current_price 5) PRICE_LENGTH

/-- historical_display (line 267). -/
def historical_display (historical_change : ℚ) : String :=
  rjust (historical_info historical_change) HISTORICAL_LENGTH

/-- format_notification (lines 250-280): the console string and the
Discord string; an extra info argument that is truthy (non-empty) is
appended in parentheses to both. -/
def format_notification (pair : String) (change current_price historical_change : ℚ)
    (extra_info : String := "") : String × String :=
  let emoji := get_emoji change
  let sign := direction_sign change
  let historical_emoji := get_emoji historical_change
  let historical_sign := direction_sign historical_change
  let message_console :=
    sign ++ emoji ++ "\t" ++ percent_display change ++ "\t" ++ pair_display pair ++ "\t"
      ++ price_display current_price ++ "\t" ++ historical_display historical_change
      ++ historical_emoji ++ historical_sign
  let message_discord :=
    sign ++ emoji ++ "`" ++ percent_display change ++ pair_display pair
      ++ price_display current_price ++ historical_display historical_change ++ "`"
      ++ historical_emoji ++ historical_sign
      ++ "[" ++ pair ++ "](<https://www.coinbase.com/advanced-trade/spot/" ++ pair ++ "-USD>)"
  if extra_info = "" then (message_console, message_discord)
  else (message_console ++ " (" ++ extra_info ++ ")", message_discord ++ " (" ++ extra_info ++ ")")

/-! Helper lemmas describing the branches of checkPair. -/

lemma length_pos_of_recent (now : ℚ) (history : List (ℚ × ℚ))
    (hrec : 0 < (recent_prices now history).length) : 0 < history.length := by
  by_contra h
  push_neg at h
  have hnil : history = [] := List.eq_nil_of_length_eq_zero (Nat.le_zero.mp h)
  subst hnil
  simp [recent_prices, window] at hrec

lemma checkPair_cooldown_stop (cfg : Config) (now : ℚ) (pair : String)
    (history : List (ℚ × ℚ)) (st : ThrottleSt)
    (hrec : 0 < (recent_prices now history).length)
    (hinit : initial_price_of now history ≠ 0)
    (hhist : ¬((historical_prices cfg now history).length > 0
        ∧ (historical_prices cfg now history).headD 0 = 0))
    (hcool : cooldownSuppressed cfg now (percentage_change_of now history) st = true) :
    checkPair cfg now pair history st = Except.ok ([], st) := by
  have hlen := length_pos_of_recent now history hrec
  unfold checkPair
  rw [if_pos hlen, if_pos hrec, if_neg hinit, if_neg hhist, if_pos hcool]

lemma checkPair_lastPrice_stop (cfg : Config) (now : ℚ) (pair : String)
    (history : List (ℚ × ℚ)) (st : ThrottleSt)
    (hrec : 0 < (recent_prices now history).length)
    (hinit : initial_price_of now history ≠ 0)
    (hhist : ¬((historical_prices cfg now history).length > 0
        ∧ (historical_prices cfg now history).headD 0 = 0))
    (hcool : cooldownSuppressed cfg now (percentage_change_of now history) st = false)
    (hlast : lastPriceSuppressed cfg (current_price_of now history) st = true) :
    checkPair cfg now pair history st = Except.ok ([], st) := by
  have hlen := length_pos_of_recent now history hrec
  unfold checkPair
  rw [if_pos hlen, if_pos hrec, if_neg hinit, if_neg hhist,
    if_neg (by simp [hcool]), if_pos hlast]

lemma checkPair_wick (cfg : Config) (now : ℚ) (pair : String)
    (history : List (ℚ × ℚ)) (st : ThrottleSt)
    (hrec : 0 < (recent_prices now history).length)
    (hinit : initial_price_of now history ≠ 0)
    (hhist : ¬((historical_prices cfg now history).length > 0
        ∧ (historical_prices cfg now history).headD 0 = 0))
    (hcool : cooldownSuppressed cfg now (percentage_change_of now history) st = false)
    (hlast : lastPriceSuppressed cfg (current_price_of now history) st = false)
    (hw : wickedOf cfg now history = true) :
    checkPair cfg now pair history st =
      Except.ok
        ([{ pair := pair, percentage_change := percentage_change_of now history,
            current_price := current_price_of now history,
            historical_percentage_change := historical_change_of cfg now history,
            extra_info := cfg.VOLATILE_TEXT, isWick := true }],
          { st with lastPrice := some (current_price_of now history) }) := by
  have hlen := length_pos_of_recent now history hrec
  unfold checkPair
  rw [if_pos hlen, if_pos hrec, if_neg hinit, if_neg hhist,
    if_neg (by simp [hcool]), if_neg (by simp [hlast])]
  rcases Bool.or_eq_true_iff.mp (by simpa [wickedOf] using hw) with hup | hdown
  · simp [hup, hw]
  · by_cases hup : upWickCond cfg now history = true
    · simp [hup, hw]
    · simp [hup, hdown, hw]

lemma checkPair_plain (cfg : Config) (now : ℚ) (pair : String)
    (history : List (ℚ × ℚ)) (st : ThrottleSt)
    (hrec : 0 < (recent_prices now history).length)
    (hinit : initial_price_of now history ≠ 0)
    (hhist : ¬((historical_prices cfg now history).length > 0
        ∧ (historical_prices cfg now history).headD 0 = 0))
    (hcool : cooldownSuppressed cfg now (percentage_change_of now history) st = false)
    (hlast : lastPriceSuppressed cfg (current_price_of now history) st = false)
    (hw : wickedOf cfg now history = false)
    (hth : cfg.NOTIFICATION_THRESHOLD ≤ |percentage_change_of now history|) :
    checkPair cfg now pair history st =
      Except.ok
        ([{ pair := pair, percentage_change := percentage_change_of now history,
            current_price := current_price_of now history,
            historical_percentage_change := historical_change_of cfg now history,
            extra_info := "", isWick := false }],
          { lastNotified := percentage_change_of now history,
            lastNotificationTime := some now,
            lastPrice := some (current_price_of now history) }) := by
  have hlen := length_pos_of_recent now history hrec
  have hup : upWickCond cfg now history = false := by
    have := hw; unfold wickedOf at this
    exact (Bool.or_eq_false_iff.mp this).1
  have hdown : downWickCond cfg now history = false := by
    have := hw; unfold wickedOf at this
    exact (Bool.or_eq_false_iff.mp this).2
  unfold checkPair
  rw [if_pos hlen, if_pos hrec, if_neg hinit, if_neg hhist,
    if_neg (by simp [hcool]), if_neg (by simp [hlast])]
  simp [hup, hdown, hw, hth]

lemma checkPair_quiet (cfg : Config) (now : ℚ) (pair : String)
    (history : List (ℚ × ℚ)) (st : ThrottleSt)
    (hrec : 0 < (recent_prices now history).length)
    (hinit : initial_price_of now history ≠ 0)
    (hhist : ¬((historical_prices cfg now history).length > 0
        ∧ (historical_prices cfg now history).headD 0 = 0))
    (hcool : cooldownSuppressed cfg now (percentage_change_of now history) st = false)
    (hlast : lastPriceSuppressed cfg (current_price_of now history) st = false)
    (hw : wickedOf cfg now history = false)
    (hth : |percentage_change_of now history| < cfg.NOTIFICATION_THRESHOLD) :
    checkPair cfg now pair history st =
      Except.ok ([], { st with lastPrice := some (current_price_of now history) }) := by
  have hlen := length_pos_of_recent now history hrec
  have hup : upWickCond cfg now history = false := by
    have := hw; unfold wickedOf at this
    exact (Bool.or_eq_false_iff.mp this).1
  have hdown : downWickCond cfg now history = false := by
    have := hw; unfold wickedOf at this
    exact (Bool.or_eq_false_iff.mp this).2
  unfold checkPair
  rw [if_pos hlen, if_pos hrec, if_neg hinit, if_neg hhist,
    if_neg (by simp [hcool]), if_neg (by simp [hlast])]
  simp [hup, hdown, hw, not_le.mpr hth]

lemma cooldownSuppressed_none (cfg : Config) (now pc : ℚ) (st : ThrottleSt)
    (h : st.lastNotificationTime = none) : cooldownSuppressed cfg now pc st = false := by
  unfold cooldownSuppressed
  rw [h]

lemma checkPair_no_recent (cfg : Config) (now : ℚ) (pair : String)
    (history : List (ℚ × ℚ)) (st : ThrottleSt)
    (hrec : ¬0 < (recent_prices now history).length) :
    checkPair cfg now pair history st = Except.ok ([], st) := by
  unfold checkPair
  by_cases hlen : 0 < history.length
  · rw [if_pos hlen, if_neg hrec]
  · rw [if_neg hlen]

/-- Exhaustive description of the outcomes of the per-pair body: an
error, a suppressed or quiet tick, a wick notification, or a plain
notification. -/
lemma checkPair_shape (cfg : Config) (now : ℚ) (pair : String)
    (history : List (ℚ × ℚ)) (st : ThrottleSt) :
    checkPair cfg now pair history st = Except.error "ZeroDivisionError"
    ∨ checkPair cfg now pair history st = Except.ok ([], st)
    ∨ checkPair cfg now pair history st =
        Except.ok ([], { st with lastPrice := some (current_price_of now history) })
    ∨ (wickedOf cfg now history = true ∧ checkPair cfg now pair history st =
        Except.ok
          ([{ pair := pair, percentage_change := percentage_change_of now history,
              current_price := current_price_of now history,
              historical_percentage_change := historical_change_of cfg now history,
              extra_info := cfg.VOLATILE_TEXT, isWick := true }],
            { st with lastPrice := some (current_price_of now history) }))
    ∨ (wickedOf cfg now history = false
        ∧ cfg.NOTIFICATION_THRESHOLD ≤ |percentage_change_of now history|
        ∧ checkPair cfg now pair history st =
        Except.ok
          ([{ pair := pair, percentage_change := percentage_change_of now history,
              current_price := current_price_of now history,
              historical_percentage_change := historical_change_of cfg now history,
              extra_info := "", isWick := false }],
            { lastNotified := percentage_change_of now history,
              lastNotificationTime := some now,
              lastPrice := some (current_price_of now history) })) := by
  by_cases hrec : 0 < (recent_prices now history).length
  · have hlen := length_pos_of_recent now history hrec
    by_cases hinit : initial_price_of now history = 0
    · left
      unfold checkPair
      rw [if_pos hlen, if_pos hrec, if_pos hinit]
    · by_cases hhist : (historical_prices cfg now history).length > 0
          ∧ (historical_prices cfg now history).headD 0 = 0
      · left
        unfold checkPair
        rw [if_pos hlen, if_pos hrec, if_neg hinit, if_pos hhist]
      · by_cases hcool : cooldownSuppressed cfg now (percentage_change_of now history) st = true
        · exact Or.inr (Or.inl
            (checkPair_cooldown_stop cfg now pair history st hrec hinit hhist hcool))
        · have hcool2 := Bool.eq_false_iff.mpr hcool
          by_cases hlast :
              lastPriceSuppressed cfg (current_price_of now history) st = true
          · exact Or.inr (Or.inl (checkPair_lastPrice_stop cfg now pair history st
              hrec hinit hhist hcool2 hlast))
          · have hlast2 := Bool.eq_false_iff.mpr hlast
            by_cases hw : wickedOf cfg now history = true
            · exact Or.inr (Or.inr (Or.inr (Or.inl ⟨hw,
                checkPair_wick cfg now pair history st hrec hinit hhist hcool2 hlast2 hw⟩)))
            · have hw2 := Bool.eq_false_iff.mpr hw
              by_cases hth :
                  cfg.NOTIFICATION_THRESHOLD ≤ |percentage_change_of now history|
              · exact Or.inr (Or.inr (Or.inr (Or.inr ⟨hw2, hth,
                  checkPair_plain cfg now pair history st hrec hinit hhist hcool2 hlast2
                    hw2 hth⟩)))
              · exact Or.inr (Or.inr (Or.inl
                  (checkPair_quiet cfg now pair history st hrec hinit hhist hcool2 hlast2
                    hw2 (not_le.mp hth))))
  · exact Or.inr (Or.inl (checkPair_no_recent cfg now pair history st hrec))

/-! Claim theorems. -/

/-- C1: a wick candidate is emitted without touching the cooldown
bookkeeping (lastNotified and lastNotificationTime are unchanged), while
a plain movement event sets lastNotified to the percentage change and
lastNotificationTime to now; consequently two consecutive wick events
for the same pair, starting from a state with no prior plain-movement
notification, both emit whenever the last-price gate is satisfied for
both (the first wick does not start a cooldown that could stop the
second). -/
theorem C1_wick_cooldown_frame :
    (∀ (cfg : Config) (now : ℚ) (pair : String) (history : List (ℚ × ℚ))
        (st : ThrottleSt) (evs : List Event) (st' : ThrottleSt),
        checkPair cfg now pair history st = Except.ok (evs, st') →
        ∀ ev ∈ evs,
          (ev.isWick = true →
            st'.lastNotified = st.lastNotified ∧
            st'.lastNotificationTime = st.lastNotificationTime) ∧
          (ev.isWick = false →
            st'.lastNotified = ev.percentage_change ∧
            st'.lastNotificationTime = some now)) ∧
    (∀ (cfg : Config) (pair : String) (now1 now2 : ℚ)
        (hist1 hist2 : List (ℚ × ℚ)) (st0 : ThrottleSt),
        st0.lastNotificationTime = none →
        0 < (recent_prices now1 hist1).length →
        initial_price_of now1 hist1 ≠ 0 →
        ¬((historical_prices cfg now1 hist1).length > 0
            ∧ (historical_prices cfg now1 hist1).headD 0 = 0) →
        lastPriceSuppressed cfg (current_price_of now1 hist1) st0 = false →
        wickedOf cfg now1 hist1 = true →
        0 < (recent_prices now2 hist2).length →
        initial_price_of now2 hist2 ≠ 0 →
        ¬((historical_prices cfg now2 hist2).length > 0
            ∧ (historical_prices cfg now2 hist2).headD 0 = 0) →
        lastPriceSuppressed cfg (current_price_of now2 hist2)
          { st0 with lastPrice := some (current_price_of now1 hist1) } = false →
        wickedOf cfg now2 hist2 = true →
        checkPair cfg now1 pair hist1 st0 =
          Except.ok
            ([{ pair := pair, percentage_change := percentage_change_of now1 hist1,
                current_price := current_price_of now1 hist1,
                historical_percentage_change := historical_change_of cfg now1 hist1,
                extra_info := cfg.VOLATILE_TEXT, isWick := true }],
              { st0 with lastPrice := some (current_price_of now1 hist1) }) ∧
        checkPair cfg now2 pair hist2
            { st0 with lastPrice := some (current_price_of now1 hist1) } =
          Except.ok
            ([{ pair := pair, percentage_change := percentage_change_of now2 hist2,
                current_price := current_price_of now2 hist2,
                historical_percentage_change := historical_change_of cfg now2 hist2,
                extra_info := cfg.VOLATILE_TEXT, isWick := true }],
              { st0 with lastPrice := some (current_price_of now2 hist2) })) := by
  constructor
  · intro cfg now pair history st evs st' h ev hev
    rcases checkPair_shape cfg now pair history st with hs | hs | hs | ⟨hw, hs⟩ | ⟨hw, hth, hs⟩ <;>
      rw [hs] at h
    · exact absurd h (by simp)
    · obtain ⟨he, hst⟩ := by simpa using h
      subst he
      simp at hev
    · obtain ⟨he, hst⟩ := by simpa using h
      subst he
      simp at hev
    · obtain ⟨he, hst⟩ := by simpa using h
      subst he hst
      simp only [List.mem_singleton] at hev
      subst hev
      constructor
      · intro _
        exact ⟨rfl, rfl⟩
      · intro hfalse
        simp at hfalse
    · obtain ⟨he, hst⟩ := by simpa using h
      subst he hst
      simp only [List.mem_singleton] at hev
      subst hev
      constructor
      · intro htrue
        simp at htrue
      · intro _
        exact ⟨rfl, rfl⟩
  · intro cfg pair now1 now2 hist1 hist2 st0 hnone hrec1 hinit1 hhist1 hlast1 hw1
      hrec2 hinit2 hhist2 hlast2 hw2
    have hcool1 : cooldownSuppressed cfg now1 (percentage_change_of now1 hist1) st0 = false :=
      cooldownSuppressed_none cfg now1 _ st0 hnone
    have h1 := checkPair_wick cfg now1 pair hist1 st0 hrec1 hinit1 hhist1 hcool1 hlast1 hw1
    have hnone1 : ({ st0 with lastPrice := some (current_price_of now1 hist1) }
        : ThrottleSt).lastNotificationTime = none := hnone
    have hcool2 : cooldownSuppressed cfg now2 (percentage_change_of now2 hist2)
        { st0 with lastPrice := some (current_price_of now1 hist1) } = false :=
      cooldownSuppressed_none cfg now2 _ _ hnone1
    have h2 := checkPair_wick cfg now2 pair hist2
      { st0 with lastPrice := some (current_price_of now1 hist1) }
      hrec2 hinit2 hhist2 hcool2 hlast2 hw2
    exact ⟨h1, h2⟩

/-- C1 witness: two wick ticks thirty seconds apart, no prior plain
notification, last-price gate satisfied for both; both emit. -/
theorem C1_wick_cooldown_frame_witness :
    checkPair defaultConfig 300 "BTC" [(0, 100), (150, 104), (300, 100)] initSt =
      Except.ok
        ([{ pair := "BTC", percentage_change := 0, current_price := 100,
            historical_percentage_change := 0, extra_info := "", isWick := true }],
          { initSt with lastPrice := some 100 }) ∧
    checkPair defaultConfig 330 "BTC" [(30, 100), (180, 104), (330, 102)]
        { initSt with lastPrice := some 100 } =
      Except.ok
        ([{ pair := "BTC", percentage_change := 2, current_price := 102,
            historical_percentage_change := 2, extra_info := "", isWick := true }],
          { initSt with lastPrice := some 102 }) := by
  have h := C1_wick_cooldown_frame.2 defaultConfig "BTC" 300 330
    [(0, 100), (150, 104), (300, 100)] [(30, 100), (180, 104), (330, 102)] initSt
    rfl
    (by norm_num [recent_prices, window])
    (by norm_num [initial_price_of, recent_prices, window])
    (by norm_num [historical_prices, window, defaultConfig])
    rfl
    (by norm_num [wickedOf, upWickCond, high_price_of, listMax, initial_price_of,
      recent_prices, window, defaultConfig])
    (by norm_num [recent_prices, window])
    (by norm_num [initial_price_of, recent_prices, window])
    (by norm_num [historical_prices, window, defaultConfig])
    (by norm_num [lastPriceSuppressed, current_price_of, recent_prices, window, defaultConfig])
    (by norm_num [wickedOf, upWickCond, high_price_of, listMax, initial_price_of,
      recent_prices, window, defaultConfig])
  norm_num [percentage_change_of, current_price_of, initial_price_of, historical_change_of,
    historical_prices, recent_prices, window, defaultConfig, initSt] at h ⊢
  exact h

/-- C2: the per-pair classifier yields at most one candidate event per
tick, and when the upward wick condition holds every produced event is
the wick event, tagged with the volatility text, never a plain event,
even if the plain threshold is also met. -/
theorem C2_single_event_wick_priority :
    ∀ (cfg : Config) (now : ℚ) (pair : String) (history : List (ℚ × ℚ))
      (st : ThrottleSt) (evs : List Event) (st' : ThrottleSt),
      checkPair cfg now pair history st = Except.ok (evs, st') →
      evs.length ≤ 1 ∧
      (upWickCond cfg now history = true →
        ∀ ev ∈ evs, ev.isWick = true ∧ ev.extra_info = cfg.VOLATILE_TEXT) := by
  intro cfg now pair history st evs st' h
  rcases checkPair_shape cfg now pair history st with hs | hs | hs | ⟨hw, hs⟩ | ⟨hw, hth, hs⟩ <;>
    rw [hs] at h
  · exact absurd h (by simp)
  · obtain ⟨he, _⟩ := by simpa using h
    subst he
    exact ⟨by simp, fun _ ev hev => by simp at hev⟩
  · obtain ⟨he, _⟩ := by simpa using h
    subst he
    exact ⟨by simp, fun _ ev hev => by simp at hev⟩
  · obtain ⟨he, _⟩ := by simpa using h
    subst he
    refine ⟨by simp, fun _ ev hev => ?_⟩
    simp only [List.mem_singleton] at hev
    subst hev
    exact ⟨rfl, rfl⟩
  · obtain ⟨he, _⟩ := by simpa using h
    subst he
    refine ⟨by simp, fun hup ev hev => ?_⟩
    rw [wickedOf, hup] at hw
    simp at hw

/-- C2 witness: a history whose high satisfies the upward wick condition
produces exactly one event and it carries the wick tag. -/
theorem C2_single_event_wick_priority_witness :
    ([{ pair := "BTC", percentage_change := 0, current_price := 100,
        historical_percentage_change := 0, extra_info := "", isWick := true }] :
      List Event).length ≤ 1 ∧
    (∀ ev ∈
      ([{ pair := "BTC", percentage_change := 0, current_price := 100,
          historical_percentage_change := 0, extra_info := "", isWick := true }] : List Event),
      ev.isWick = true ∧ ev.extra_info = defaultConfig.VOLATILE_TEXT) := by
  have h0 : checkPair defaultConfig 300 "BTC" [(0, 100), (150, 104), (300, 100)] initSt =
      Except.ok
        ([{ pair := "BTC", percentage_change := 0, current_price := 100,
            historical_percentage_change := 0, extra_info := "", isWick := true }],
          { initSt with lastPrice := some 100 }) := by
    norm_num [checkPair, cooldownSuppressed, lastPriceSuppressed, upWickCond, downWickCond,
      wickedOf, percentage_change_of, historical_change_of, current_price_of, initial_price_of,
      high_price_of, low_price_of, listMax, listMin, historical_prices, recent_prices, window,
      defaultConfig, initSt]
  have h := C2_single_event_wick_priority defaultConfig 300 "BTC"
    [(0, 100), (150, 104), (300, 100)] initSt _ _ h0
  exact ⟨h.1, h.2 (by norm_num [upWickCond, high_price_of, listMax, initial_price_of,
    recent_prices, window, defaultConfig])⟩

/-- C3: when a prior notification exists, fewer than the cooldown
minutes have passed, and the change delta is below threshold times the
cooldown multiplier, the pair is suppressed by continue with no state
update; hence a second plain-movement candidate within the cooldown
window and with a small delta after an emitted plain notification is
suppressed, so the two ticks emit at most one notification. -/
theorem C3_cooldown_suppression :
    (∀ (cfg : Config) (now : ℚ) (pair : String) (history : List (ℚ × ℚ))
        (st : ThrottleSt) (t : ℚ),
        st.lastNotificationTime = some t →
        0 < (recent_prices now history).length →
        initial_price_of now history ≠ 0 →
        ¬((historical_prices cfg now history).length > 0
            ∧ (historical_prices cfg now history).headD 0 = 0) →
        (now - t) / 60 < cfg.NOTIFICATION_COOLDOWN →
        |percentage_change_of now history - st.lastNotified| <
          cfg.NOTIFICATION_THRESHOLD * cfg.NOTIFICATION_COOLDOWN_MULTIPLIER →
        checkPair cfg now pair history st = Except.ok ([], st)) ∧
    (∀ (cfg : Config) (pair : String) (now1 now2 : ℚ)
        (hist1 hist2 : List (ℚ × ℚ)) (st0 st1 : ThrottleSt)
        (evs1 : List Event) (ev : Event),
        checkPair cfg now1 pair hist1 st0 = Except.ok (evs1, st1) →
        ev ∈ evs1 → ev.isWick = false →
        0 < (recent_prices now2 hist2).length →
        initial_price_of now2 hist2 ≠ 0 →
        ¬((historical_prices cfg now2 hist2).length > 0
            ∧ (historical_prices cfg now2 hist2).headD 0 = 0) →
        (now2 - now1) / 60 < cfg.NOTIFICATION_COOLDOWN →
        |percentage_change_of now2 hist2 - ev.percentage_change| <
          cfg.NOTIFICATION_THRESHOLD * cfg.NOTIFICATION_COOLDOWN_MULTIPLIER →
        checkPair cfg now2 pair hist2 st1 = Except.ok ([], st1) ∧ evs1.length ≤ 1) := by
  have main : ∀ (cfg : Config) (now : ℚ) (pair : String) (history : List (ℚ × ℚ))
      (st : ThrottleSt) (t : ℚ),
      st.lastNotificationTime = some t →
      0 < (recent_prices now history).length →
      initial_price_of now history ≠ 0 →
      ¬((historical_prices cfg now history).length > 0
          ∧ (historical_prices cfg now history).headD 0 = 0) →
      (now - t) / 60 < cfg.NOTIFICATION_COOLDOWN →
      |percentage_change_of now history - st.lastNotified| <
        cfg.NOTIFICATION_THRESHOLD * cfg.NOTIFICATION_COOLDOWN_MULTIPLIER →
      checkPair cfg now pair history st = Except.ok ([], st) := by
    intro cfg now pair history st t hsome hrec hinit hhist htime hdelta
    have hcool : cooldownSuppressed cfg now (percentage_change_of now history) st = true := by
      unfold cooldownSuppressed
      rw [hsome]
      simp [htime, hdelta]
    exact checkPair_cooldown_stop cfg now pair history st hrec hinit hhist hcool
  refine ⟨main, ?_⟩
  intro cfg pair now1 now2 hist1 hist2 st0 st1 evs1 ev h hev hplain
    hrec2 hinit2 hhist2 htime hdelta
  rcases checkPair_shape cfg now1 pair hist1 st0 with hs | hs | hs | ⟨hw, hs⟩ | ⟨hw, hth, hs⟩ <;>
    rw [hs] at h
  · exact absurd h (by simp)
  · obtain ⟨he, _⟩ := by simpa using h
    subst he
    simp at hev
  · obtain ⟨he, _⟩ := by simpa using h
    subst he
    simp at hev
  · obtain ⟨he, hst⟩ := by simpa using h
    subst he
    simp only [List.mem_singleton] at hev
    subst hev
    simp at hplain
  · obtain ⟨he, hst⟩ := by simpa using h
    subst he hst
    simp only [List.mem_singleton] at hev
    subst hev
    refine ⟨main cfg now2 pair hist2 _ now1 rfl hrec2 hinit2 hhist2 htime hdelta, by simp⟩

/-- C3 witness: a plain notification at time 0 with change 2, then a
candidate one minute later with change 3: within cooldown, delta 1 below
the amplified threshold 2, the second tick is suppressed unchanged. -/
theorem C3_cooldown_suppression_witness :
    checkPair defaultConfig 60 "BTC" [(0, 100), (60, 103)]
        { lastNotified := 2, lastNotificationTime := some 0, lastPrice := some 100 } =
      Except.ok ([],
        { lastNotified := 2, lastNotificationTime := some 0, lastPrice := some 100 }) := by
  have h := C3_cooldown_suppression.1 defaultConfig 60 "BTC" [(0, 100), (60, 103)]
    { lastNotified := 2, lastNotificationTime := some 0, lastPrice := some 100 } 0
    rfl
    (by norm_num [recent_prices, window])
    (by norm_num [initial_price_of, recent_prices, window])
    (by norm_num [historical_prices, window, defaultConfig])
    (by norm_num [defaultConfig])
    (by norm_num [percentage_change_of, current_price_of, initial_price_of,
      recent_prices, window, defaultConfig])
  exact h

/-- C4 counterexample: a pair passing both gates with a small change and
no wick emits no notification, yet its last price entry is mutated from
none to the current price, refuting the claim that last_price is only
mutated when a notification is about to be sent. -/
theorem C4_counterexample_quiet_update :
    checkPair defaultConfig 300 "BTC" [(300, 100)] initSt =
      Except.ok ([], { initSt with lastPrice := some 100 }) ∧
    ({ initSt with lastPrice := some (100 : ℚ) } : ThrottleSt).lastPrice ≠ initSt.lastPrice := by
  constructor
  · norm_num [checkPair, cooldownSuppressed, lastPriceSuppressed, upWickCond, downWickCond,
      wickedOf, percentage_change_of, historical_change_of, current_price_of, initial_price_of,
      high_price_of, low_price_of, listMax, listMin, historical_prices, recent_prices, window,
      defaultConfig, initSt]
  · simp [initSt]

/-- C4 amended: last_price is mutated only in the course of evaluating
the pair and only to the current short-window price, and it has been
updated whenever a notification is emitted; but it is also updated when
the pair passes both gates without producing any event, so a tick
without an emitted notification may still change last_price. -/
theorem C4_lastPrice_update :
    ∀ (cfg : Config) (now : ℚ) (pair : String) (history : List (ℚ × ℚ))
      (st : ThrottleSt) (evs : List Event) (st' : ThrottleSt),
      checkPair cfg now pair history st = Except.ok (evs, st') →
      (st'.lastPrice = st.lastPrice ∨
        st'.lastPrice = some (current_price_of now history)) ∧
      (∀ ev ∈ evs, st'.lastPrice = some (current_price_of now history)) := by
  intro cfg now pair history st evs st' h
  rcases checkPair_shape cfg now pair history st with hs | hs | hs | ⟨hw, hs⟩ | ⟨hw, hth, hs⟩ <;>
    rw [hs] at h
  · exact absurd h (by simp)
  · obtain ⟨he, hst⟩ := by simpa using h
    subst he hst
    exact ⟨Or.inl rfl, fun ev hev => by simp at hev⟩
  · obtain ⟨he, hst⟩ := by simpa using h
    subst he hst
    exact ⟨Or.inr rfl, fun ev hev => by simp at hev⟩
  · obtain ⟨he, hst⟩ := by simpa using h
    subst he hst
    exact ⟨Or.inr rfl, fun ev hev => rfl⟩
  · obtain ⟨he, hst⟩ := by simpa using h
    subst he hst
    exact ⟨Or.inr rfl, fun ev hev => rfl⟩

/-- C4 witness: a plain notification tick updates last_price to the
current price 102. -/
theorem C4_lastPrice_update_witness :
    current_price_of 300 [(0, 100), (300, 102)] = 102 ∧
    ((⟨2, some 300, some 102⟩ : ThrottleSt).lastPrice = initSt.lastPrice ∨
      (⟨2, some 300, some 102⟩ : ThrottleSt).lastPrice =
        some (current_price_of 300 [(0, 100), (300, 102)])) ∧
    (∀ ev ∈
      ([{ pair := "BTC", percentage_change := 2, current_price := 102,
          historical_percentage_change := 2, extra_info := "", isWick := false }] : List Event),
      (⟨2, some 300, some 102⟩ : ThrottleSt).lastPrice =
        some (current_price_of 300 [(0, 100), (300, 102)])) := by
  have h0 : checkPair defaultConfig 300 "BTC" [(0, 100), (300, 102)] initSt =
      Except.ok
        ([{ pair := "BTC", percentage_change := 2, current_price := 102,
            historical_percentage_change := 2, extra_info := "", isWick := false }],
          (⟨2, some 300, some 102⟩ : ThrottleSt)) := by
    norm_num [checkPair, cooldownSuppressed, lastPriceSuppressed, upWickCond, downWickCond,
      wickedOf, percentage_change_of, historical_change_of, current_price_of, initial_price_of,
      high_price_of, low_price_of, listMax, listMin, historical_prices, recent_prices, window,
      defaultConfig, initSt]
  have h := C4_lastPrice_update defaultConfig 300 "BTC" [(0, 100), (300, 102)] initSt _ _ h0
  exact ⟨by norm_num [current_price_of, recent_prices, window], h.1, h.2⟩

/-- C5: a history containing a zero price sample is not excluded or
skipped: evaluation reaches the percentage change division with a zero
initial price and the tick raises ZeroDivisionError, contrary to the
documented intent that such samples are logged and never raised. -/
theorem C5_zero_price_division_error :
    checkPair defaultConfig 0 "BTC" [(0, 0)] initSt = Except.error "ZeroDivisionError" := by
  norm_num [checkPair, initial_price_of, recent_prices, window, initSt]

/-- C6 counterexample: ingesting at time 3600 with a 60 minute retention
evicts the sample timestamped 0, although that sample is not older than
now minus the retention window (it sits exactly on the boundary), so the
history does not equal the claimed append-then-drop-strictly-older
result. -/
theorem C6_counterexample_boundary_eviction :
    ingest 60 3600 2 [(0, 1)] = [(3600, 2)] ∧
    ingestClaimed 60 3600 2 [(0, 1)] = [(0, 1), (3600, 2)] ∧
    ingest 60 3600 2 [(0, 1)] ≠ ingestClaimed 60 3600 2 [(0, 1)] := by
  refine ⟨by norm_num [ingest], by norm_num [ingestClaimed], ?_⟩
  have h1 : ingest 60 3600 2 [(0, 1)] = [(3600, 2)] := by norm_num [ingest]
  have h2 : ingestClaimed 60 3600 2 [(0, 1)] = [(0, 1), (3600, 2)] := by
    norm_num [ingestClaimed]
  rw [h1, h2]
  simp

/-- C6 amended: ingest appends the new sample and keeps exactly the
samples strictly newer than now minus the retention period (boundary
samples are evicted as well); hence every retained sample is strictly
younger than the retention window relative to now, insertion order is
preserved, and update_price_history applies exactly this ingest to the
ingested pair. -/
theorem C6_ingest_retention :
    ∀ (retentionMinutes now price : ℚ) (h : List (ℚ × ℚ)) (pair : String)
      (hist : String → List (ℚ × ℚ)),
      ingest retentionMinutes now price h =
        (h ++ [(now, price)]).filter (fun s => decide (now - retentionMinutes * 60 < s.1)) ∧
      (∀ s ∈ ingest retentionMinutes now price h, now - s.1 < retentionMinutes * 60) ∧
      List.Sublist (ingest retentionMinutes now price h) (h ++ [(now, price)]) ∧
      update_price_history retentionMinutes now [(pair, some price)] hist pair =
        ingest retentionMinutes now price (hist pair) := by
  intro retentionMinutes now price h pair hist
  refine ⟨rfl, ?_, List.filter_sublist _, ?_⟩
  · intro s hs
    have := (List.mem_filter.mp hs).2
    have hlt : now - retentionMinutes * 60 < s.1 := of_decide_eq_true this
    linarith
  · simp [update_price_history, Function.update_same]

/-- C6 witness: the retained boundary scenario sample is strictly
younger than the retention window. -/
theorem C6_ingest_retention_witness :
    ingest 60 3600 2 [(0, 1)] = [(3600, 2)] ∧ (3600 : ℚ) - 3600 < 60 * 60 := by
  refine ⟨by norm_num [ingest], ?_⟩
  exact (C6_ingest_retention 60 3600 2 [(0, 1)] "BTC" (fun _ => [])).2.1 (3600, 2)
    (by norm_num [ingest])

/-- C7: a fetched price of None is a no-op for its pair: the update
behaves as if the absent entries were not present at all, and a pair all
of whose entries are absent keeps its history exactly unchanged. -/
theorem C7_absent_price_noop :
    ∀ (retentionMinutes now : ℚ) (prices : List (String × Option ℚ))
      (hist : String → List (ℚ × ℚ)),
      update_price_history retentionMinutes now prices hist =
        update_price_history retentionMinutes now
          (prices.filter (fun pp => pp.2.isSome)) hist ∧
      (∀ pair : String, (∀ p : ℚ, (pair, some p) ∉ prices) →
        update_price_history retentionMinutes now prices hist pair = hist pair) := by
  intro retentionMinutes now prices
  induction prices with
  | nil => exact fun hist => ⟨rfl, fun pair _ => rfl⟩
  | cons pp rest ih =>
      intro hist
      obtain ⟨q, op⟩ := pp
      cases op with
      | none =>
          constructor
          · simpa [update_price_history] using (ih hist).1
          · intro pair hnp
            have hrest : ∀ p : ℚ, (pair, some p) ∉ rest := by
              intro p hp
              exact hnp p (List.mem_cons_of_mem _ hp)
            simpa [update_price_history] using (ih hist).2 pair hrest
      | some price =>
          constructor
          · simpa [update_price_history] using
              (ih (Function.update hist q (ingest retentionMinutes now price (hist q)))).1
          · intro pair hnp
            have hne : pair ≠ q := by
              intro he
              subst he
              exact hnp price (List.mem_cons_self _ _)
            have hrest : ∀ p : ℚ, (pair, some p) ∉ rest := by
              intro p hp
              exact hnp p (List.mem_cons_of_mem _ hp)
            have := (ih (Function.update hist q
              (ingest retentionMinutes now price (hist q)))).2 pair hrest
            simpa [update_price_history, Function.update_noteq hne] using this

/-- C7 witness: an absent price leaves the existing history of the pair
untouched. -/
theorem C7_absent_price_noop_witness :
    update_price_history 60 3600 [("BTC", none)] (fun _ => [(0, 5)]) "BTC" = [(0, 5)] := by
  exact (C7_absent_price_noop 60 3600 [("BTC", none)] (fun _ => [(0, 5)])).2 "BTC" (by simp)

/-- C8: the window operation is monotone in the duration: a shorter
lookback yields a subsequence (same samples, same relative order) of a
longer one; the window of an unknown pair (empty history) is empty, and
so is the window of a history with no samples in range. -/
theorem C8_window_monotone :
    (∀ (now d1 d2 : ℚ) (history : List (ℚ × ℚ)), d1 ≤ d2 →
      List.Sublist (window now d1 history) (window now d2 history)) ∧
    (∀ now d : ℚ, window now d ([] : List (ℚ × ℚ)) = []) ∧
    (∀ (now d : ℚ) (history : List (ℚ × ℚ)),
      (∀ s ∈ history, s.1 < now - d) → window now d history = []) := by
  refine ⟨?_, fun now d => rfl, ?_⟩
  · intro now d1 d2 history hd
    apply List.monotone_filter_right
    intro a ha
    simp only [decide_eq_true_eq] at ha ⊢
    linarith
  · intro now d history hout
    apply List.filter_eq_nil_iff.mpr
    intro a ha
    simp only [decide_eq_true_eq, not_le]
    exact hout a ha

/-- C8 witness: with a shorter and a longer duration on a concrete
history the shorter window is a subsequence of the longer one, and a
fully out-of-range history windows to the empty list. -/
theorem C8_window_monotone_witness :
    List.Sublist (window 300 30 [(0, 1), (240, 2), (300, 3)])
      (window 300 120 [(0, 1), (240, 2), (300, 3)]) ∧
    window 300 30 [(0, 1), (240, 2), (300, 3)] = [(300, 3)] ∧
    window 300 120 [(0, 1), (240, 2), (300, 3)] = [(240, 2), (300, 3)] ∧
    window 300 30 [(0, 1)] = [] := by
  refine ⟨C8_window_monotone.1 300 30 120 _ (by norm_num), by norm_num [window],
    by norm_num [window], C8_window_monotone.2.2 300 30 [(0, 1)] (by norm_num)⟩

/-- C9: the formatter is a pure function of its arguments: equal inputs
give identical console and webhook strings; both strings place the
severity glyph of the primary change and of the historical change, and
the glyph is chosen by the fixed absolute-percentage ladder whose ten
markers are pairwise distinct. -/
theorem C9_formatter_deterministic_ladder :
    (∀ (p1 : String) (c1 pr1 hc1 : ℚ) (n1 : String)
        (p2 : String) (c2 pr2 hc2 : ℚ) (n2 : String),
        p1 = p2 → c1 = c2 → pr1 = pr2 → hc1 = hc2 → n1 = n2 →
        format_notification p1 c1 pr1 hc1 n1 = format_notification p2 c2 pr2 hc2 n2) ∧
    (∀ (p : String) (c pr hc : ℚ),
        (format_notification p c pr hc "").1 =
          direction_sign c ++ get_emoji c ++ "\t" ++ percent_display c ++ "\t"
            ++ pair_display p ++ "\t" ++ price_display pr ++ "\t" ++ historical_display hc
            ++ get_emoji hc ++ direction_sign hc) ∧
    (∀ c : ℚ,
      (|c| < 1 → get_emoji c = "▪️") ∧
      (1 ≤ |c| → |c| < 2 → get_emoji c = "◼") ∧
      (2 ≤ |c| → |c| < 3 → get_emoji c = "🟫") ∧
      (3 ≤ |c| → |c| < 4 → get_emoji c = "🟪") ∧
      (4 ≤ |c| → |c| < 5 → get_emoji c = "🟦") ∧
      (5 ≤ |c| → |c| < 6 → get_emoji c = "🟩") ∧
      (6 ≤ |c| → |c| < 7 → get_emoji c = "🟨") ∧
      (7 ≤ |c| → |c| < 8 → get_emoji c = "🟧") ∧
      (8 ≤ |c| → |c| < 9 → get_emoji c = "🟥") ∧
      (9 ≤ |c| → get_emoji c = "💥")) ∧
    List.Nodup ["▪️", "◼", "🟫", "🟪", "🟦", "🟩", "🟨", "🟧", "🟥", "💥"] := by
  refine ⟨?_, fun p c pr hc => rfl, ?_, by decide⟩
  · intro p1 c1 pr1 hc1 n1 p2 c2 pr2 hc2 n2 hp hc hpr hhc hn
    subst hp
    subst hc
    subst hpr
    subst hhc
    subst hn
    rfl
  · intro c
    refine ⟨?_, ?_, ?_, ?_, ?_, ?_, ?_, ?_, ?_, ?_⟩
    · intro hhi
      simp [get_emoji, hhi]
    · intro hlo hhi
      have h1 : ¬(|c| < 1) := not_lt.mpr hlo
      simp [get_emoji, h1, hhi]
    · intro hlo hhi
      have h1 : ¬(|c| < 1) := not_lt.mpr (le_trans (by norm_num) hlo)
      have h2 : ¬(|c| < 2) := not_lt.mpr hlo
      simp [get_emoji, h1, h2, hhi]
    · intro hlo hhi
      have h1 : ¬(|c| < 1) := not_lt.mpr (le_trans (by norm_num) hlo)
      have h2 : ¬(|c| < 2) := not_lt.mpr (le_trans (by norm_num) hlo)
      have h3 : ¬(|c| < 3) := not_lt.mpr hlo
      simp [get_emoji, h1, h2, h3, hhi]
    · intro hlo hhi
      have h1 : ¬(|c| < 1) := not_lt.mpr (le_trans (by norm_num) hlo)
      have h2 : ¬(|c| < 2) := not_lt.mpr (le_trans (by norm_num) hlo)
      have h3 : ¬(|c| < 3) := not_lt.mpr (le_trans (by norm_num) hlo)
      have h4 : ¬(|c| < 4) := not_lt.mpr hlo
      simp [get_emoji, h1, h2, h3, h4, hhi]
    · intro hlo hhi
      have h1 : ¬(|c| < 1) := not_lt.mpr (le_trans (by norm_num) hlo)
      have h2 : ¬(|c| < 2) := not_lt.mpr (le_trans (by norm_num) hlo)
      have h3 : ¬(|c| < 3) := not_lt.mpr (le_trans (by norm_num) hlo)
      have h4 : ¬(|c| < 4) := not_lt.mpr (le_trans (by norm_num) hlo)
      have h5 : ¬(|c| < 5) := not_lt.mpr hlo
      simp [get_emoji, h1, h2, h3, h4, h5, hhi]
    · intro hlo hhi
      have h1 : ¬(|c| < 1) := not_lt.mpr (le_trans (by norm_num) hlo)
      have h2 : ¬(|c| < 2) := not_lt.mpr (le_trans (by norm_num) hlo)
      have h3 : ¬(|c| < 3) := not_lt.mpr (le_trans (by norm_num) hlo)
      have h4 : ¬(|c| < 4) := not_lt.mpr (le_trans (by norm_num) hlo)
      have h5 : ¬(|c| < 5) := not_lt.mpr (le_trans (by norm_num) hlo)
      have h6 : ¬(|c| < 6) := not_lt.mpr hlo
      simp [get_emoji, h1, h2, h3, h4, h5, h6, hhi]
    · intro hlo hhi
      have h1 : ¬(|c| < 1) := not_lt.mpr (le_trans (by norm_num) hlo)
      have h2 : ¬(|c| < 2) := not_lt.mpr (le_trans (by norm_num) hlo)
      have h3 : ¬(|c| < 3) := not_lt.mpr (le_trans (by norm_num) hlo)
      have h4 : ¬(|c| < 4) := not_lt.mpr (le_trans (by norm_num) hlo)
      have h5 : ¬(|c| < 5) := not_lt.mpr (le_trans (by norm_num) hlo)
      have h6 : ¬(|c| < 6) := not_lt.mpr (le_trans (by norm_num) hlo)
      have h7 : ¬(|c| < 7) := not_lt.mpr hlo
      simp [get_emoji, h1, h2, h3, h4, h5, h6, h7, hhi]
    · intro hlo hhi
      have h1 : ¬(|c| < 1) := not_lt.mpr (le_trans (by norm_num) hlo)
      have h2 : ¬(|c| < 2) := not_lt.mpr (le_trans (by norm_num) hlo)
      have h3 : ¬(|c| < 3) := not_lt.mpr (le_trans (by norm_num) hlo)
      have h4 : ¬(|c| < 4) := not_lt.mpr (le_trans (by norm_num) hlo)
      have h5 : ¬(|c| < 5) := not_lt.mpr (le_trans (by norm_num) hlo)
      have h6 : ¬(|c| < 6) := not_lt.mpr (le_trans (by norm_num) hlo)
      have h7 : ¬(|c| < 7) := not_lt.mpr (le_trans (by norm_num) hlo)
      have h8 : ¬(|c| < 8) := not_lt.mpr hlo
      simp [get_emoji, h1, h2, h3, h4, h5, h6, h7, h8, hhi]
    · intro hlo
      have h1 : ¬(|c| < 1) := not_lt.mpr (le_trans (by norm_num) hlo)
      have h2 : ¬(|c| < 2) := not_lt.mpr (le_trans (by norm_num) hlo)
      have h3 : ¬(|c| < 3) := not_lt.mpr (le_trans (by norm_num) hlo)
      have h4 : ¬(|c| < 4) := not_lt.mpr (le_trans (by norm_num) hlo)
      have h5 : ¬(|c| < 5) := not_lt.mpr (le_trans (by norm_num) hlo)
      have h6 : ¬(|c| < 6) := not_lt.mpr (le_trans (by norm_num) hlo)
      have h7 : ¬(|c| < 7) := not_lt.mpr (le_trans (by norm_num) hlo)
      have h8 : ¬(|c| < 8) := not_lt.mpr (le_trans (by norm_num) hlo)
      have h9 : ¬(|c| < 9) := not_lt.mpr hlo
      simp [get_emoji, h1, h2, h3, h4, h5, h6, h7, h8, h9]

/-- C9 witness: equal concrete inputs give equal output, and the glyph
of a five percent change is the ladder entry for the interval from five
to six. -/
theorem C9_formatter_deterministic_ladder_witness :
    format_notification "BTC" 2 30000 1 "" = format_notification "BTC" 2 30000 1 "" ∧
    get_emoji 5 = "🟩" := by
  refine ⟨C9_formatter_deterministic_ladder.1 "BTC" 2 30000 1 "" "BTC" 2 30000 1 ""
    rfl rfl rfl rfl rfl, ?_⟩
  exact (C9_formatter_deterministic_ladder.2.2.1 5).2.2.2.2.2.1 (by norm_num) (by norm_num)

/-- C10 counterexample: at a change of exactly zero the console string
carries the downward marker but still shows an explicit plus sign in the
percentage field (the always-signed float format), so the plus sign is
not omitted. -/
theorem C10_counterexample_zero_plus_sign :
    (format_notification "BTC" 0 1 0 "").1 =
      "🔸▪️\t+0.00% \t   [BTC]   \t $1.00000 \t  [60m 0.00%]▪️🔸" ∧
    '+' ∈ (format_notification "BTC" 0 1 0 "").1.data := by
  have h : (format_notification "BTC" 0 1 0 "").1 =
      "🔸▪️\t+0.00% \t   [BTC]   \t $1.00000 \t  [60m 0.00%]▪️🔸" := by
    norm_num [format_notification, get_emoji, direction_sign, percent_display, pair_display,
      price_display, historical_display, historical_info, historical_plus, pyFixedSigned,
      pyFixed, pyFixedAbs, roundHalfEven, zeroPad, ljust, rjust, center, spaces, PERCENT_LENGTH,
      PAIR_LENGTH, PRICE_LENGTH, HISTORICAL_LENGTH, HISTORICAL_INTERVAL_MINUTES]
    rfl
  refine ⟨h, ?_⟩
  rw [h]
  decide

/-- C10 amended: the direction marker is the upward glyph exactly for a
strictly positive change, so a zero change (and a zero historical
change) renders the downward marker; the manual plus of the historical
field is omitted at zero, but the primary percentage field always
carries an explicit sign, showing plus zero at a zero change. -/
theorem C10_zero_change_markers :
    (∀ c : ℚ, direction_sign c = "🔹" ↔ 0 < c) ∧
    direction_sign 0 = "🔸" ∧
    historical_plus 0 = "" ∧
    percent_display 0 = "+0.00% " ∧
    (∀ (p : String) (c pr hc : ℚ),
      (format_notification p c pr hc "").1 =
        direction_sign c ++ get_emoji c ++ "\t" ++ percent_display c ++ "\t"
          ++ pair_display p ++ "\t" ++ price_display pr ++ "\t" ++ historical_display hc
          ++ get_emoji hc ++ direction_sign hc) := by
  refine ⟨?_, rfl, rfl, ?_, fun p c pr hc => rfl⟩
  · intro c
    unfold direction_sign
    by_cases h : 0 < c
    · simp [h]
    · rw [if_neg h]
      constructor
      · intro he
        exact absurd he (by decide)
      · intro hc
        exact absurd hc h
  · norm_num [percent_display, pyFixedSigned, pyFixedAbs, roundHalfEven, zeroPad, ljust,
      spaces, PERCENT_LENGTH]
    rfl

/-- C10 witness: a strictly positive change renders the upward marker. -/
theorem C10_zero_change_markers_witness :
    direction_sign 2 = "🔹" := (C10_zero_change_markers.1 2).mpr (by norm_num)

end Scanner
